import Mathlib

/-!
Verification of the ParkM email-classification core against its specification.

The definitions below are shallow embeddings of the Python sources:
* `get_routing_recommendation` embeds
  `EmailClassifier.get_routing_recommendation` (src/services/classifier.py,
  lines 193-218) — the Python dict is embedded as `ClassificationRecord`
  whose fields are `Option`-valued, matching `dict.get` returning `None`
  for an absent key.
* `classify_email` embeds the control flow of
  `EmailClassifier.classify_email` (src/services/classifier.py, lines 19-73):
  the outcome of the downstream OpenAI call and the outcome of the analytics
  logging block are explicit parameters, `json.loads` is embedded as
  `json_loads` over a concrete JSON grammar.
* `demo_cls_entry` embeds the classification-entry construction of the
  demo-data generator in main.py (lines 843-859).
-/

/-- The Python value `classification` passed to `get_routing_recommendation`
is a `Dict[str, Any]`; `classification.get(k)` yields `None` when the key is
absent.  Each schema key of the Classification record is therefore embedded
as an `Option`-valued field. -/
structure KeyEntities where
  license_plate : Option String
  move_out_date : Option String
  property_name : Option String
  amount : Option String
deriving DecidableEq, Repr

/-- The Classification record produced by `classify_email` and consumed by
`get_routing_recommendation`: the ten schema keys of the prompt, each
`Option`-valued (absent key ↦ `none`). -/
structure ClassificationRecord where
  intent : Option String
  complexity : Option String
  language : Option String
  urgency : Option String
  confidence : Option ℚ
  key_entities : Option KeyEntities
  requires_refund : Option Bool
  requires_human_review : Option Bool
  suggested_response_type : Option String
  notes : Option String
deriving DecidableEq, Repr

/-- Embedding of `EmailClassifier.get_routing_recommendation`
(src/services/classifier.py, lines 203-218), clause for clause:

    intent = classification.get("intent")
    complexity = classification.get("complexity")
    if intent == "refund_request" and complexity == "simple":
        return "Auto-Resolution Queue"
    elif intent in ["refund_request", "payment_issue"]:
        return "Accounting/Refunds"
    elif intent == "permit_cancellation" and complexity == "simple":
        return "Quick Updates"
    elif intent == "account_update" and complexity == "simple":
        return "Quick Updates"
    elif complexity == "complex" or classification.get("urgency") == "high":
        return "Escalations"
    else:
        return "General Support"
-/
def get_routing_recommendation (c : ClassificationRecord) : String :=
  if c.intent = some "refund_request" ∧ c.complexity = some "simple" then
    "Auto-Resolution Queue"
  else if c.intent = some "refund_request" ∨ c.intent = some "payment_issue" then
    "Accounting/Refunds"
  else if c.intent = some "permit_cancellation" ∧ c.complexity = some "simple" then
    "Quick Updates"
  else if c.intent = some "account_update" ∧ c.complexity = some "simple" then
    "Quick Updates"
  else if c.complexity = some "complex" ∨ c.urgency = some "high" then
    "Escalations"
  else
    "General Support"

/-- The ordered first-match routing policy exactly as the specification
states it (spec §4.2, rules 1-5).  This definition follows the spec's words;
`get_routing_recommendation` follows the source.  Claim C1 compares them. -/
def routePolicy (c : ClassificationRecord) : String :=
  if c.intent = some "refund_request" ∧ c.complexity = some "simple" then
    "Auto-Resolution Queue"
  else if c.intent = some "refund_request" ∨ c.intent = some "payment_issue" then
    "Accounting/Refunds"
  else if (c.intent = some "permit_cancellation" ∨ c.intent = some "account_update")
      ∧ c.complexity = some "simple" then
    "Quick Updates"
  else if c.complexity = some "complex" ∨ c.urgency = some "high" then
    "Escalations"
  else
    "General Support"

/-- The five queue names the Router may produce (spec §4.2 / §8). -/
def queueNames : List String :=
  ["Auto-Resolution Queue", "Accounting/Refunds", "Quick Updates",
   "Escalations", "General Support"]

/-- The closed nine-value intent enumeration of the classification prompt
(src/services/classifier.py, lines 85-94, and spec §3). -/
def intentEnumeration : List String :=
  ["refund_request", "permit_cancellation", "account_update", "permit_inquiry",
   "payment_issue", "technical_issue", "move_out", "general_question", "unclear"]

/-- JSON values, the codomain of Python's `json.loads`. -/
inductive Json where
  | null
  | bool (b : Bool)
  | num (q : ℚ)
  | str (s : String)
  | arr (elems : List Json)
  | obj (fields : List (String × Json))

/-- The Python exceptions that can cross `classify_email`'s boundary:
an exception raised by the OpenAI client call (line 35) and
`json.JSONDecodeError` raised by `json.loads` (line 73, carrying the
offending document).  The constructor `classificationFailure` stands for
the spec's `ClassificationFailure` wrapper error; no such class exists in
the source, and the theorems below show the code never produces it. -/
inductive PyErr where
  | apiError (msg : String)
  | jsonDecodeError (doc : String)
  | classificationFailure (msg : String)
deriving DecidableEq, Repr

/-- Whitespace skipping of the JSON grammar. -/
def skipWs : List Char → List Char
  | [] => []
  | c :: cs =>
    if c = ' ' ∨ c = '\n' ∨ c = '\t' ∨ c = '\r' then skipWs cs else c :: cs

/-- Body of a JSON string after the opening quote (escape-free fragment of
the grammar, which covers every document these theorems evaluate). -/
def parseStringBody : List Char → Option (String × List Char)
  | [] => none
  | '"' :: cs => some ("", cs)
  | '\\' :: _ => none
  | c :: cs => (parseStringBody cs).map (fun p => (String.mk (c :: p.1.data), p.2))

/-- Longest digit prefix and the remaining input. -/
def takeDigits : List Char → List Char × List Char
  | [] => ([], [])
  | c :: cs =>
    if c.isDigit then
      let p := takeDigits cs
      (c :: p.1, p.2)
    else ([], c :: cs)

/-- Decimal digits to a natural number. -/
def digitsToNat (ds : List Char) : Nat :=
  ds.foldl (fun acc c => 10 * acc + (c.toNat - 48)) 0

/-- Unsigned decimal number with optional fractional part. -/
def parseNumAux (neg : Bool) (cs : List Char) : Option (Json × List Char) :=
  let p := takeDigits cs
  if p.1.isEmpty then none
  else
    let ip : ℚ := (digitsToNat p.1 : ℚ)
    match p.2 with
    | '.' :: cs2 =>
      let q := takeDigits cs2
      if q.1.isEmpty then none
      else
        let v : ℚ := ip + (digitsToNat q.1 : ℚ) / ((10 : ℚ) ^ q.1.length)
        some (Json.num (if neg then -v else v), q.2)
    | rest => some (Json.num (if neg then -ip else ip), rest)

/-- JSON number, with optional leading minus sign. -/
def parseNumber : List Char → Option (Json × List Char)
  | '-' :: cs => parseNumAux true cs
  | cs => parseNumAux false cs

mutual

/-- A JSON value (fuel-indexed recursive descent; the fuel bounds nesting
depth and `json_loads` supplies more fuel than any document can use). -/
def parseValue : Nat → List Char → Option (Json × List Char)
  | 0, _ => none
  | fuel+1, input =>
    match skipWs input with
    | 'n' :: 'u' :: 'l' :: 'l' :: cs => some (Json.null, cs)
    | 't' :: 'r' :: 'u' :: 'e' :: cs => some (Json.bool true, cs)
    | 'f' :: 'a' :: 'l' :: 's' :: 'e' :: cs => some (Json.bool false, cs)
    | '"' :: cs => (parseStringBody cs).map (fun p => (Json.str p.1, p.2))
    | '[' :: cs =>
      match skipWs cs with
      | ']' :: cs2 => some (Json.arr [], cs2)
      | cs2 => (parseItems fuel cs2).map (fun p => (Json.arr p.1, p.2))
    | '\x7b' :: cs =>
      match skipWs cs with
      | '\x7d' :: cs2 => some (Json.obj [], cs2)
      | cs2 => (parseFields fuel cs2).map (fun p => (Json.obj p.1, p.2))
    | cs => parseNumber cs

/-- Comma-separated array elements up to the closing bracket. -/
def parseItems : Nat → List Char → Option (List Json × List Char)
  | 0, _ => none
  | fuel+1, input =>
    match parseValue fuel input with
    | none => none
    | some (v, rest) =>
      match skipWs rest with
      | ',' :: rest2 => (parseItems fuel rest2).map (fun p => (v :: p.1, p.2))
      | ']' :: rest2 => some ([v], rest2)
      | _ => none

/-- Comma-separated `"key": value` members up to the closing brace. -/
def parseFields : Nat → List Char → Option (List (String × Json) × List Char)
  | 0, _ => none
  | fuel+1, input =>
    match skipWs input with
    | '"' :: cs =>
      match parseStringBody cs with
      | none => none
      | some (key, rest) =>
        match skipWs rest with
        | ':' :: rest2 =>
          match parseValue fuel rest2 with
          | none => none
          | some (v, rest3) =>
            match skipWs rest3 with
            | ',' :: rest4 =>
              (parseFields fuel rest4).map (fun p => ((key, v) :: p.1, p.2))
            | '\x7d' :: rest4 => some ([(key, v)], rest4)
            | _ => none
        | _ => none
    | _ => none

end

/-- Embedding of `json.loads` (src/services/classifier.py, line 73): a
well-formed document yields its JSON value, anything else raises
`json.JSONDecodeError`. -/
def json_loads (s : String) : Except PyErr Json :=
  match parseValue (s.length + 1) s.data with
  | some (j, rest) =>
    if skipWs rest = [] then Except.ok j else Except.error (PyErr.jsonDecodeError s)
  | none => Except.error (PyErr.jsonDecodeError s)

/-- The `response.usage` object of the OpenAI chat completion. -/
structure OpenAIUsage where
  prompt_tokens : Nat
  completion_tokens : Nat
  total_tokens : Nat
deriving DecidableEq, Repr

/-- The chat-completion response consumed by `classify_email`:
`response.choices[0].message.content` and `response.usage`. -/
structure ChatResponse where
  content : String
  usage : Option OpenAIUsage

/-- What one call of `classify_email` produces: its return value or the
exception it raises, together with whether the analytics usage log was
written (the only effect of lines 53-70). -/
structure ClassifyOutcome where
  result : Except PyErr Json
  usage_logged : Bool

/-- Embedding of the control flow of `EmailClassifier.classify_email`
(src/services/classifier.py, lines 19-73).  The outcome of the downstream
OpenAI call (line 35) and the outcome of the analytics-logging block
(lines 57-68: import, `estimate_openai_cost`, `log_api_usage`) are explicit
parameters.  An exception from the call propagates — there is no
try/except around it.  The logging block runs only when `usage` is truthy
and sits inside `try: ... except Exception: pass` ("Never let logging break
classification"), so a logging exception is swallowed; the method then
returns `json.loads(response.choices[0].message.content)` with no
try/except around `json.loads` either. -/
def classify_email (callResult : Except PyErr ChatResponse)
    (logOutcome : Except PyErr Unit) : ClassifyOutcome :=
  match callResult with
  | Except.error e => ⟨Except.error e, false⟩
  | Except.ok response =>
    let logged :=
      match response.usage, logOutcome with
      | some _, Except.ok _ => true
      | some _, Except.error _ => false
      | none, _ => false
    ⟨json_loads response.content, logged⟩

/-- Does this exception have the spec's `ClassificationFailure` shape? -/
def isClassificationFailure : PyErr → Bool
  | PyErr.classificationFailure _ => true
  | _ => false

/-- Is this outcome a raised `ClassificationFailure`? -/
def resultIsClassificationFailure : Except PyErr Json → Bool
  | Except.error e => isClassificationFailure e
  | Except.ok _ => false

/-- A classification entry of the demo-data generator in main.py
(the `cls_entry` dict of lines 843-859); the fields whose values the
generator computes deterministically from its per-ticket draws. -/
structure DemoClsEntry where
  ticket_id : String
  intent : Option String
  confidence : Option ℚ
  complexity : Option String
  urgency : Option String
  language : String
  requires_refund : Bool
  requires_human_review : Bool
  routing_queue : Option String
  tagging_success : Bool
  error : Option String
deriving DecidableEq, Repr

/-- Embedding of the `cls_entry` construction of main.py, lines 843-859.
The parameters are the generator's per-ticket draws (`intent`,
`confidence`, `complexity`, `urgency`, `routing`, `tagging_ok`,
`has_error`); `confidence` is embedded as a rational.  Line 854 sets
`"requires_human_review": confidence < 0.7` — the confidence comparison
alone, with no contribution from complexity or urgency. -/
def demo_cls_entry (ticket_id intent : String) (confidence : ℚ)
    (complexity urgency routing : String) (tagging_ok has_error : Bool) :
    DemoClsEntry :=
  ⟨ticket_id,
   if has_error then none else some intent,
   if has_error then none else some confidence,
   if has_error then none else some complexity,
   if has_error then none else some urgency,
   "english",
   decide (intent = "refund_request" ∨ intent = "permit_cancellation"),
   decide (confidence < 7/10),
   if has_error then none else some routing,
   tagging_ok,
   if has_error then some "OpenAI timeout" else none⟩

/-- C1: for every classification record, `get_routing_recommendation` returns
the queue given by the ordered first-match policy of the specification:
refund_request with simple complexity gives "Auto-Resolution Queue"; otherwise
refund_request or payment_issue gives "Accounting/Refunds"; otherwise
permit_cancellation or account_update with simple complexity gives
"Quick Updates"; otherwise complex complexity or high urgency gives
"Escalations"; otherwise "General Support". -/
theorem routing_matches_ordered_policy (c : ClassificationRecord) :
    get_routing_recommendation c = routePolicy c := by
  unfold get_routing_recommendation routePolicy
  split_ifs <;> first | rfl | tauto

/-- C2: routing of refund_request and payment_issue ignores complexity and
urgency except for the rule-1 special case: refund_request with any
non-simple complexity routes to "Accounting/Refunds" (never "Escalations"),
payment_issue always routes to "Accounting/Refunds" when not caught by an
earlier rule (no earlier rule can catch it), and in particular a
refund_request of complex complexity and medium urgency routes to
"Accounting/Refunds". -/
theorem refund_payment_routing_ignores_complexity (c d : ClassificationRecord)
    (hc : c.intent = some "refund_request") (hcs : c.complexity ≠ some "simple")
    (hd : d.intent = some "payment_issue") :
    get_routing_recommendation c = "Accounting/Refunds"
      ∧ get_routing_recommendation c ≠ "Escalations"
      ∧ get_routing_recommendation d = "Accounting/Refunds"
      ∧ get_routing_recommendation d ≠ "Escalations" := by
  unfold get_routing_recommendation
  refine ⟨?_, ?_, ?_, ?_⟩ <;> split_ifs <;> simp_all

/-- Concrete instance for C2: `route({intent: refund_request, complexity:
complex, urgency: medium})` = "Accounting/Refunds". -/
theorem refund_payment_routing_ignores_complexity_witness :
    get_routing_recommendation
        ⟨some "refund_request", some "complex", some "english", some "medium",
         some (9/10), none, some true, some false, some "manual", none⟩
      = "Accounting/Refunds" :=
  (refund_payment_routing_ignores_complexity
      ⟨some "refund_request", some "complex", some "english", some "medium",
       some (9/10), none, some true, some false, some "manual", none⟩
      ⟨some "payment_issue", some "simple", some "english", some "medium",
       none, none, none, none, none, none⟩
      rfl (by decide) rfl).1

/-- C6: `get_routing_recommendation` is a pure function of the `intent`,
`complexity` and `urgency` fields: two records that agree on those three
fields — whatever their confidence, entities, flags, notes, language — are
routed to the identical queue string.  (Determinism of repeated calls on one
record is immediate: the embedding is a function.) -/
theorem routing_depends_only_on_intent_complexity_urgency
    (c₁ c₂ : ClassificationRecord)
    (hi : c₁.intent = c₂.intent) (hc : c₁.complexity = c₂.complexity)
    (hu : c₁.urgency = c₂.urgency) :
    get_routing_recommendation c₁ = get_routing_recommendation c₂ := by
  unfold get_routing_recommendation
  rw [hi, hc, hu]

/-- Concrete instance for C6: two records agreeing on intent/complexity/urgency
but differing in confidence, entities, flags and notes route identically. -/
theorem routing_depends_only_on_intent_complexity_urgency_witness :
    get_routing_recommendation
        ⟨some "move_out", some "moderate", some "english", some "low",
         some (95/100), some ⟨some "ABC-1234", none, none, none⟩,
         some true, some true, some "manual", some "clear move-out"⟩
      = get_routing_recommendation
        ⟨some "move_out", some "moderate", some "spanish", some "low",
         some (4/10), none, some false, some false, some "auto_draft", none⟩ :=
  routing_depends_only_on_intent_complexity_urgency
    ⟨some "move_out", some "moderate", some "english", some "low",
     some (95/100), some ⟨some "ABC-1234", none, none, none⟩,
     some true, some true, some "manual", some "clear move-out"⟩
    ⟨some "move_out", some "moderate", some "spanish", some "low",
     some (4/10), none, some false, some false, some "auto_draft", none⟩
    rfl rfl rfl

/-- C10: for every record whose intent is outside the closed nine-value
enumeration (e.g. "tow_issue" or "password_reset"), including records where
the intent key is absent, `get_routing_recommendation` does not fail and
falls through to the last two rules: "Escalations" when complexity is
complex or urgency is high, "General Support" otherwise. -/
theorem routing_out_of_enum_falls_through (c : ClassificationRecord)
    (h : ∀ s ∈ intentEnumeration, c.intent ≠ some s) :
    get_routing_recommendation c =
      if c.complexity = some "complex" ∨ c.urgency = some "high" then
        "Escalations"
      else
        "General Support" := by
  have h1 := h "refund_request" (by simp [intentEnumeration])
  have h2 := h "payment_issue" (by simp [intentEnumeration])
  have h3 := h "permit_cancellation" (by simp [intentEnumeration])
  have h4 := h "account_update" (by simp [intentEnumeration])
  unfold get_routing_recommendation
  split_ifs <;> first | rfl | tauto

/-- Concrete instance for C10: intent "tow_issue" with simple complexity and
medium urgency falls through to "General Support". -/
theorem routing_out_of_enum_falls_through_witness :
    get_routing_recommendation
        ⟨some "tow_issue", some "simple", some "english", some "medium",
         some (8/10), none, none, none, none, none⟩
      = "General Support" := by
  have h := routing_out_of_enum_falls_through
    ⟨some "tow_issue", some "simple", some "english", some "medium",
     some (8/10), none, none, none, none, none⟩
    (by intro s hs; simp [intentEnumeration] at hs
        rcases hs with h | h | h | h | h | h | h | h | h <;> subst h <;> decide)
  simpa using h

/-- C4: for every classification record, `get_routing_recommendation` returns
one of exactly the five literal queue strings; being a total Lean function on
the whole record type, it returns no other value and cannot fail. -/
theorem routing_total_five_queues (c : ClassificationRecord) :
    get_routing_recommendation c ∈ queueNames := by
  unfold get_routing_recommendation queueNames
  split_ifs <;> simp

/-- Counterexample to C3: `classify_email` does not wrap failures in the
spec's `ClassificationFailure`.  On a non-JSON body it raises the raw
`json.JSONDecodeError`, and on a failed downstream call it propagates the
raw client exception — in neither case a `ClassificationFailure` carrying
the cause, because no such wrapper exists in the source. -/
theorem classify_email_no_failure_wrapper :
    (classify_email (Except.ok ⟨"not json", none⟩) (Except.ok ())).result
        = Except.error (PyErr.jsonDecodeError "not json")
      ∧ resultIsClassificationFailure
          (classify_email (Except.ok ⟨"not json", none⟩) (Except.ok ())).result = false
      ∧ (classify_email (Except.error (PyErr.apiError "connection reset"))
            (Except.ok ())).result
        = Except.error (PyErr.apiError "connection reset")
      ∧ resultIsClassificationFailure
          (classify_email (Except.error (PyErr.apiError "connection reset"))
            (Except.ok ())).result = false :=
  ⟨rfl, rfl, rfl, rfl⟩

/-- C3 as amended: if the downstream call fails or returns a non-JSON or
malformed body, `classify_email` fails by propagating the underlying
exception itself — the raw client error, or a `json.JSONDecodeError`
carrying the offending document — never a `ClassificationFailure` wrapper
(none exists in the source); and it never substitutes a fallback
Classification: on a malformed body its result is exactly the outcome of
`json.loads`, hence an error, not a fabricated record. -/
theorem classify_email_propagates_underlying_error
    (e : PyErr) (response : ChatResponse) (g g' : Except PyErr Unit) :
    (classify_email (Except.error e) g).result = Except.error e
      ∧ (classify_email (Except.ok response) g').result = json_loads response.content
      ∧ resultIsClassificationFailure (json_loads response.content) = false := by
  refine ⟨rfl, rfl, ?_⟩
  unfold json_loads
  rcases hp : parseValue (response.content.length + 1) response.content.data with _ | ⟨j, rest⟩
  · simp [resultIsClassificationFailure, isClassificationFailure]
  · by_cases hr : skipWs rest = [] <;>
      simp [hr, resultIsClassificationFailure, isClassificationFailure]

/-- Counterexample to C5: an intent string outside the nine-value
enumeration is not treated as a failure.  With the downstream body
`{"intent": "tow_issue"}`, `classify_email` succeeds and returns the
out-of-enumeration intent as-is in the resulting Classification — it is
neither rejected (no `InvalidIntentValue` exists in the source) nor
coerced to `unclear`. -/
theorem classify_email_returns_out_of_enum_intent :
    (classify_email (Except.ok ⟨"\x7b\"intent\": \"tow_issue\"\x7d", none⟩)
        (Except.ok ())).result
      = Except.ok (Json.obj [("intent", Json.str "tow_issue")]) := rfl

/-- C5 as amended: `classify_email` performs no validation of the parsed
response: whenever the downstream body parses as JSON, the parsed object is
returned as-is in a successful result — including when its intent field is
outside the closed enumeration — and no `InvalidIntentValue` failure is
ever produced. -/
theorem classify_email_no_intent_validation
    (response : ChatResponse) (g : Except PyErr Unit) (j : Json)
    (h : json_loads response.content = Except.ok j) :
    (classify_email (Except.ok response) g).result = Except.ok j := h

/-- Concrete instance for C5 as amended: the out-of-enumeration intent
"password_reset" comes back unchanged in a successful result. -/
theorem classify_email_no_intent_validation_witness :
    (classify_email (Except.ok ⟨"\x7b\"intent\": \"password_reset\"\x7d", none⟩)
        (Except.ok ())).result
      = Except.ok (Json.obj [("intent", Json.str "password_reset")]) :=
  classify_email_no_intent_validation
    ⟨"\x7b\"intent\": \"password_reset\"\x7d", none⟩ (Except.ok ())
    (Json.obj [("intent", Json.str "password_reset")]) rfl

/-- C9: a failure of the analytics usage-logging step inside
`classify_email` (import failure, cost estimation, or log write — all
inside the `try: ... except Exception: pass` of lines 56-70) never alters
or prevents the return value: the result with a failing logging step equals
the result with any other logging outcome, and is exactly the parsed
classification from the downstream response. -/
theorem logging_failure_never_alters_result
    (response : ChatResponse) (e : PyErr) (g : Except PyErr Unit) :
    (classify_email (Except.ok response) (Except.error e)).result
        = (classify_email (Except.ok response) g).result
      ∧ (classify_email (Except.ok response) (Except.error e)).result
        = json_loads response.content :=
  ⟨rfl, rfl⟩

/-- Counterexample to C8: the only place the system computes
`requires_human_review` (main.py, line 854) ignores complexity and
urgency.  A generated entry with confidence 0.95, complexity "complex" and
urgency "high" — for which the claim demands `requires_human_review =
true` — gets `requires_human_review = false`. -/
theorem requires_human_review_ignores_complexity :
    (demo_cls_entry "TEST-1000" "refund_request" (95/100) "complex" "high"
        "billing_refunds" true false).complexity = some "complex"
      ∧ (demo_cls_entry "TEST-1000" "refund_request" (95/100) "complex" "high"
          "billing_refunds" true false).urgency = some "high"
      ∧ (demo_cls_entry "TEST-1000" "refund_request" (95/100) "complex" "high"
          "billing_refunds" true false).requires_human_review = false := by
  refine ⟨rfl, rfl, ?_⟩
  simp only [demo_cls_entry, decide_eq_false_iff_not, not_lt]
  norm_num

/-- C8 as amended: in every classification entry the demo-data generator
produces, `requires_human_review` is true exactly when confidence is below
0.70; neither complexity nor urgency (nor any other draw) influences it. -/
theorem requires_human_review_iff_low_confidence
    (t i : String) (confidence : ℚ) (comp urg r : String) (ok err : Bool) :
    (demo_cls_entry t i confidence comp urg r ok err).requires_human_review = true
      ↔ confidence < 7/10 := by
  simp [demo_cls_entry]

/-- Concrete instance for C8 as amended: confidence 0.68 with simple
complexity and low urgency still sets the flag. -/
theorem requires_human_review_iff_low_confidence_witness :
    (demo_cls_entry "TEST-1001" "general_inquiry" (68/100) "simple" "low"
        "general_support" true false).requires_human_review = true :=
  (requires_human_review_iff_low_confidence "TEST-1001" "general_inquiry"
      (68/100) "simple" "low" "general_support" true false).mpr (by norm_num)
